import Mathlib

/-!
Verification of the djerba plugin-orchestration core (src/lib/djerba/core/main.py),
the demo1 plugin (src/lib/djerba/plugins/demo1/plugin.py) and the simple reader
(src/lib/djerba/simple/reader.py), against the repository specification.

Python dictionaries and INI sections are embedded as ordered association lists,
JSON values as an inductive type, and exceptions as an Except monad.  Components
of the repository that are referenced by the sources but whose own source files
are not available (the plugin loader, the plugin base class and its config
wrapper, the core configurer / extractor / renderer, the JSON validator and the
path validator) are modelled from the specification; each such definition carries
a doc comment starting with "Modelled from the spec".
-/

namespace Djerba

/-- JSON-like values: the wire form of plugin data and report data (spec section 6). -/
inductive JVal where
  | null : JVal
  | bool (b : Bool) : JVal
  | num (n : Int) : JVal
  | str (s : String) : JVal
  | arr (elems : List JVal) : JVal
  | obj (fields : List (String × JVal)) : JVal

/-- The error kinds surfaced by the pipeline (spec section 7), plus the Python
exceptions that the source can raise: AttributeError for access to an attribute
never assigned on the object, TypeError and RuntimeError for the reader. -/
inductive Err where
  | attributeError (attr : String) : Err
  | loadError (identifier : String) : Err
  | paramError (identifier param : String) : Err
  | validationError (identifier : String) : Err
  | outputPathError (path : String) : Err
  | runtimeError (msg : String) : Err
  | typeError (msg : String) : Err
deriving DecidableEq, Repr

/-- Ordered-dictionary lookup, as Python dict / ConfigParser lookup. -/
def alookup {α : Type} : List (String × α) → String → Option α
  | [], _ => none
  | kv :: rest, k => if kv.1 = k then some kv.2 else alookup rest k

/-- Ordered-dictionary insertion with Python dict semantics: an existing key is
updated in place (keeping its position), a new key is appended at the end. -/
def dictInsert {α : Type} : List (String × α) → String → α → List (String × α)
  | [], k, v => [(k, v)]
  | kv :: rest, k, v =>
    if kv.1 = k then (k, v) :: rest else kv :: dictInsert rest k v

/-- An INI value: ConfigParser values are strings; none models Python None. -/
abbrev IniVal := Option String

/-- One configuration section: an ordered mapping of string keys to values. -/
abbrev IniSection := List (String × IniVal)

/-- A configuration: an ordered mapping from section name to section
(spec section 3, Configuration). -/
abbrev Config := List (String × IniSection)

/-- Python str.join with a separator, used by main.render as a newline join. -/
def joinWith (sep : String) : List String → String
  | [] => ""
  | [x] => x
  | x :: xs => x ++ sep ++ joinWith sep xs

/-- Modelled from the spec (section 3): the reserved core section name.
main.py refers to it as ini.CORE; the util/ini_fields.py under src predates the
plugin core and does not define CORE, and the core constants module imported by
the plugins (djerba.core.constants) is not under src, so the reserved name is
taken from the spec, which fixes it to "core" (also used literally by
plugins/supplement/body/plugin.py). -/
def CORE : String := "core"

/-- Modelled from the spec (djerba.core.constants is not under src): the
"clinical" attribute tag (spec section 3, Attribute Set). -/
def CLINICAL : String := "clinical"

/-- Modelled from the spec (djerba.core.constants is not under src): the
"supplementary" attribute tag (spec section 3, Attribute Set). -/
def SUPPLEMENTARY : String := "supplementary"

/-- Modelled from the spec (section 3, Parameter Specification; section 4.3,
specify_params): the parameters a plugin declares at construction, classified as
required, discovered or default, plus its default priority and attribute tags. -/
structure ParamSpec where
  required : List String
  discovered : List String
  defaults : List (String × IniVal)
  configPriority : Int
  attributes : List String

/-- The required and discovered parameters of a specification: exactly the ones
that must be present and non-null after configure succeeds (spec section 3). -/
def reqDisc (p : ParamSpec) : List String := p.required ++ p.discovered

/-- Whether a parameter is present with a non-null value in a section. -/
def paramPresent (s : IniSection) (q : String) : Bool :=
  match alookup s q with
  | some (some _) => true
  | _ => false

/-- The first parameter of the list that is absent or null in the section. -/
def firstNullParam (params : List String) (s : IniSection) : Option String :=
  params.find? (fun q => ! paramPresent s q)

/-- Modelled from the spec (section 4.3, configure): apply each declared default
to the section when its key is absent, in declaration order. -/
def applyDefaults (defaults : List (String × IniVal)) (s : IniSection) : IniSection :=
  match defaults with
  | [] => s
  | (k, v) :: rest =>
    applyDefaults rest (if (alookup s k).isSome then s else s ++ [(k, v)])

/-- Modelled from the spec (section 3, Priority; the config wrapper of
plugins.base is not under src): set_my_priorities writes the plugin's priority
for each phase into its own section. -/
def setPriorities (p : Int) (s : IniSection) : IniSection :=
  dictInsert
    (dictInsert
      (dictInsert s "configure_priority" (some (toString p)))
      "extract_priority" (some (toString p)))
    "render_priority" (some (toString p))

/-- A plugin implementation: the capability set of the plugin contract
(spec section 4.3) together with its declared parameter specification.
The discover hook models the plugin-specific filling of discovered parameters. -/
structure PluginImpl where
  spec : ParamSpec
  discover : IniSection → IniSection
  extractFn : String → IniSection → JVal
  renderFn : String → JVal → Except Err String

/-- Modelled from the spec (section 4.3, configure; plugins.base is not under
src): the configure step of the plugin contract.  Declared defaults are applied
to absent keys, discovered parameters may be filled in, priorities are
registered, and the step fails with a Parameter Error naming the first required
or discovered parameter that is absent or null; on success every required and
discovered parameter is present and non-null. -/
def contractConfigure (identifier : String) (p : PluginImpl) (s : IniSection) :
    Except Err IniSection :=
  let s1 := applyDefaults p.spec.defaults s
  let s2 := p.discover s1
  let s3 := setPriorities p.spec.configPriority s2
  match firstNullParam (reqDisc p.spec) s3 with
  | some q => .error (.paramError identifier q)
  | none => .ok s3

/-- A loaded plugin instance: the implementation bound to its identifier, with a
construction stamp (uid) that is distinct for every construction, so that
re-construction is observable. -/
structure LoadedPlugin where
  identifier : String
  impl : PluginImpl
  uid : Nat

/-- The state of the plugin loader: the per-identifier instance cache and the
next construction stamp. -/
structure LoaderState where
  cache : List (String × LoadedPlugin)
  fresh : Nat

/-- The loader state created in main.init: an empty cache. -/
def freshLoader : LoaderState := ⟨[], 0⟩

/-- Modelled from the spec (section 4.2; djerba.core.plugin_loader is not under
src): load resolves an identifier; the first call constructs the plugin and
caches the instance, later calls return the cached instance; an unknown
identifier is a Load Error. -/
def pluginLoad (reg : String → Option PluginImpl) (st : LoaderState)
    (identifier : String) : Except Err (LoadedPlugin × LoaderState) :=
  match alookup st.cache identifier with
  | some inst => .ok (inst, st)
  | none =>
    match reg identifier with
    | none => .error (.loadError identifier)
    | some impl =>
      let inst : LoadedPlugin := ⟨identifier, impl, st.fresh⟩
      .ok (inst, ⟨st.cache ++ [(identifier, inst)], st.fresh + 1⟩)

/-- A sequence of loader calls, as performed by the phases over one run: each
identifier in turn is loaded on the shared loader state. -/
def loadSeq (reg : String → Option PluginImpl) (st : LoaderState) :
    List String → Except Err LoaderState
  | [] => .ok st
  | identifier :: ids =>
    match pluginLoad reg st identifier with
    | .error e => .error e
    | .ok (_, st1) => loadSeq reg st1 ids

/-- The parameter specification governing a section: the core configurer's for
the reserved section, the registered plugin's for any other section name. -/
def sectionSpec (reg : String → Option PluginImpl) (core : PluginImpl)
    (nm : String) : ParamSpec :=
  if nm = CORE then core.spec
  else
    match reg nm with
    | some p => p.spec
    | none => { required := [], discovered := [], defaults := [],
                configPriority := 0, attributes := [] }

/-- Consistency of a loader cache with the registry: every cached instance is
the one the registry resolves its identifier to.  It holds of the empty cache
created at orchestrator construction and is preserved by every load. -/
def regCacheConsistent (reg : String → Option PluginImpl) (st : LoaderState) : Prop :=
  ∀ nm inst, alookup st.cache nm = some inst → reg nm = some inst.impl

/-- The attributes bound on the orchestrator object in main.init
(main.py lines 24 to 29). -/
def mainInstanceAttributes : List String :=
  ["log_level", "log_path", "logger", "json_validator", "path_validator",
   "plugin_loader"]

/-- Whether the orchestrator object has the given attribute. -/
def hasMainAttr (a : String) : Bool := mainInstanceAttributes.contains a

/-- The pre-flight output check of each phase: with an output path given, the
phase reads the named validator attribute of the orchestrator and calls
validate_output_file on it.  configure (main.py line 33) and extract (line 53)
read self.validator, render (line 70) reads self.path_validator; reading an
attribute that main.init never assigned raises AttributeError.  The writability
check itself (util.validator.path_validator, not under src) is modelled from the
spec as the writable predicate, failing with an Output-Path Error. -/
def outputPreflight (writable : String → Bool) (pathOut : Option String)
    (attr : String) : Except Err Unit :=
  match pathOut with
  | none => .ok ()
  | some p =>
    if hasMainAttr attr then
      if writable p then .ok () else .error (.outputPathError p)
    else .error (.attributeError attr)

/-- The handler of one section in main.configure (main.py lines 37 to 45): the
core section goes to the core configurer, any other section loads its plugin and
calls the plugin's configure. -/
def configureHandler (reg : String → Option PluginImpl) (core : PluginImpl)
    (st : LoaderState) (nm : String) (s : IniSection) :
    Except Err (IniSection × LoaderState) :=
  if nm = CORE then
    (contractConfigure nm core s).map (fun s' => (s', st))
  else
    match pluginLoad reg st nm with
    | .error e => .error e
    | .ok (inst, st1) => (contractConfigure nm inst.impl s).map (fun s' => (s', st1))

/-- The section loop of main.configure: each section is handled in order and the
output configuration preserves the original section order; the first handler
failure aborts the loop. -/
def configureList (reg : String → Option PluginImpl) (core : PluginImpl)
    (st : LoaderState) : List (String × IniSection) →
    Except Err (Config × LoaderState)
  | [] => .ok ([], st)
  | (nm, s) :: rest =>
    match configureHandler reg core st nm s with
    | .error e => .error e
    | .ok (s', st1) =>
      match configureList reg core st1 rest with
      | .error e => .error e
      | .ok (cfg, st') => .ok ((nm, s') :: cfg, st')

/-- main.configure (main.py lines 31 to 49): optional pre-flight on the output
path (through self.validator, line 33), then the section loop, then, only on
success, the write of the output file.  Writes are modelled as the list of
destination paths written. -/
def configurePhase (reg : String → Option PluginImpl) (core : PluginImpl)
    (writable : String → Bool) (st : LoaderState) (pathOut : Option String)
    (cfgIn : Config) : Except Err (Config × List String × LoaderState) :=
  match outputPreflight writable pathOut "validator" with
  | .error e => .error e
  | .ok _ =>
    match configureList reg core st cfgIn with
    | .error e => .error e
    | .ok (cfgOut, st') =>
      .ok (cfgOut, (match pathOut with | some p => [p] | none => []), st')

/-- The aggregated report data produced by extract (spec section 3): core-level
fields plus a plugins map from identifier to plugin data, in insertion order. -/
structure ReportData where
  core : List (String × JVal)
  plugins : List (String × JVal)

/-- Conversion of an INI value to a JSON value. -/
def iniToJ : IniVal → JVal
  | none => .null
  | some s => .str s

/-- Modelled from the spec (sections 2 and 4.1; djerba.core.extract is not under
src): the core extractor produces report data whose core-level fields come from
the core section and whose plugins map is empty. -/
def coreExtractRun (cfg : Config) : ReportData :=
  { core := ((alookup cfg CORE).getD []).map (fun kv => (kv.1, iniToJ kv.2))
  , plugins := [] }

/-- Whether a JSON value is an object. -/
def isObjVal : JVal → Bool
  | .obj _ => true
  | _ => false

/-- Whether a JSON value is an array of objects. -/
def isArrOfObjs : JVal → Bool
  | .arr elems => elems.all isObjVal
  | _ => false

/-- Modelled from the spec (section 4.4 and the wire form of section 6;
djerba.core.json_validator is not under src): a plugin data object validates when
it is an object whose required top-level keys are present with the declared
shapes -- plugin_name a string, priorities and attributes and results objects,
merge_inputs an object mapping names to arrays of objects. -/
def validateData (pd : JVal) : Bool :=
  match pd with
  | .obj fields =>
    (match alookup fields "plugin_name" with
     | some (.str _) => true
     | _ => false)
    && (match alookup fields "priorities" with
        | some (.obj _) => true
        | _ => false)
    && (match alookup fields "attributes" with
        | some (.obj _) => true
        | _ => false)
    && (match alookup fields "merge_inputs" with
        | some (.obj mi) => mi.all (fun kv => isArrOfObjs kv.2)
        | _ => false)
    && (match alookup fields "results" with
        | some (.obj _) => true
        | _ => false)
  | _ => false

/-- The handler of one non-core section in main.extract (main.py lines 58 to
61): load the plugin, call its extract on the section, validate the result
against the schema; a validation failure is a Validation Error. -/
def extractHandler (reg : String → Option PluginImpl) (st : LoaderState)
    (nm : String) (s : IniSection) : Except Err (JVal × LoaderState) :=
  match pluginLoad reg st nm with
  | .error e => .error e
  | .ok (inst, st1) =>
    let pd := inst.impl.extractFn inst.identifier s
    if validateData pd then .ok (pd, st1) else .error (.validationError nm)

/-- The section loop of main.extract (main.py lines 56 to 62): every non-core
section, in configuration order, has its plugin data extracted, validated and
inserted into the plugins map under the section name. -/
def extractLoop (reg : String → Option PluginImpl) (st : LoaderState)
    (acc : List (String × JVal)) : List (String × IniSection) →
    Except Err (List (String × JVal) × LoaderState)
  | [] => .ok (acc, st)
  | (nm, s) :: rest =>
    if nm = CORE then extractLoop reg st acc rest
    else
      match extractHandler reg st nm s with
      | .error e => .error e
      | .ok (pd, st1) => extractLoop reg st1 (dictInsert acc nm pd) rest

/-- main.extract (main.py lines 51 to 66): optional pre-flight on the output
path (through self.validator, line 53), the core extractor, the section loop,
and, only on success, the write of the JSON output file. -/
def extractPhase (reg : String → Option PluginImpl) (writable : String → Bool)
    (st : LoaderState) (jsonPath : Option String) (cfg : Config) :
    Except Err (ReportData × List String × LoaderState) :=
  match outputPreflight writable jsonPath "validator" with
  | .error e => .error e
  | .ok _ =>
    let data0 := coreExtractRun cfg
    match extractLoop reg st data0.plugins cfg with
    | .error e => .error e
    | .ok (plugins, st') =>
      .ok (⟨data0.core, plugins⟩,
           (match jsonPath with | some p => [p] | none => []), st')

/-- Projection of a string-valued core report field, with empty fallback. -/
def jfieldStr (core : List (String × JVal)) (k : String) : String :=
  match alookup core k with
  | some (.str s) => s
  | _ => ""

/-- Modelled from the spec (section 4.5; djerba.core.render is not under src):
the core renderer derives the document header and footer from core-level report
fields only, with no dependency on any plugin content. -/
def coreRenderRun (core : List (String × JVal)) : String × String :=
  ("<header title=" ++ jfieldStr core "title" ++ ">",
   "<footer author=" ++ jfieldStr core "author" ++ ">")

/-- The handler of one plugins-map entry in main.render (main.py lines 77 to
79): load the plugin and call its render on the entry's plugin data. -/
def renderHandler (reg : String → Option PluginImpl) (st : LoaderState)
    (nm : String) (pd : JVal) : Except Err (String × LoaderState) :=
  match pluginLoad reg st nm with
  | .error e => .error e
  | .ok (inst, st1) => (inst.impl.renderFn inst.identifier pd).map (fun f => (f, st1))

/-- The fragment loop of main.render (main.py lines 76 to 79): one fragment per
plugins-map entry, in insertion order. -/
def renderLoop (reg : String → Option PluginImpl) (st : LoaderState) :
    List (String × JVal) → Except Err (List String × LoaderState)
  | [] => .ok ([], st)
  | (nm, pd) :: rest =>
    match renderHandler reg st nm pd with
    | .error e => .error e
    | .ok (frag, st1) =>
      match renderLoop reg st1 rest with
      | .error e => .error e
      | .ok (frags, st') => .ok (frag :: frags, st')

/-- main.render (main.py lines 68 to 85): optional pre-flight on the output path
(through self.path_validator, line 70), header and footer from the core
renderer, one fragment per plugin in insertion order, the document joined with a
single newline between consecutive elements, and, only on success, the write of
the HTML output file. -/
def renderPhase (reg : String → Option PluginImpl) (writable : String → Bool)
    (st : LoaderState) (htmlPath : Option String) (data : ReportData) :
    Except Err (String × List String × LoaderState) :=
  match outputPreflight writable htmlPath "path_validator" with
  | .error e => .error e
  | .ok _ =>
    let hf := coreRenderRun data.core
    match renderLoop reg st data.plugins with
    | .error e => .error e
    | .ok (frags, st') =>
      let html := joinWith "\n" ([hf.1] ++ frags ++ [hf.2])
      .ok (html, (match htmlPath with | some p => [p] | none => []), st')

/-- Modelled from the spec (the config wrapper of plugins.base is not under
src): read an integer-valued INI key as a JSON number, null when absent or not
an integer. -/
def iniIntJ (s : IniSection) (k : String) : JVal :=
  match alookup s k with
  | some (some v) =>
    match v.toInt? with
    | some n => .num n
    | none => .null
  | _ => .null

/-- Modelled from the spec (the config wrapper of plugins.base is not under
src): get_my_priorities reads the per-phase priorities registered in the
plugin's own section. -/
def getMyPriorities (s : IniSection) : JVal :=
  .obj [("configure", iniIntJ s "configure_priority"),
        ("extract", iniIntJ s "extract_priority"),
        ("render", iniIntJ s "render_priority")]

/-- Modelled from the spec (the config wrapper of plugins.base is not under
src): read a boolean INI flag; the string True is true, anything else false. -/
def iniFlag (s : IniSection) (k : String) : JVal :=
  match alookup s k with
  | some (some v) => .bool (v == "True")
  | _ => .bool false

/-- Modelled from the spec (sections 3 and 6; the config wrapper of plugins.base
is not under src): get_my_attributes reads the plugin's attribute tags from its
section as an object of flags. -/
def getMyAttributes (s : IniSection) : JVal :=
  .obj [(CLINICAL, iniFlag s CLINICAL), (SUPPLEMENTARY, iniFlag s SUPPLEMENTARY)]

/-- The parameter specification registered in demo1's constructor
(plugins/demo1/plugin.py lines 11 to 16): question is required; the defaults are
clinical True, supplementary False and dummy_file None (booleans stored in their
INI string form, None as a null value); the default configure priority is 100
(line 9). -/
def demo1Spec : ParamSpec :=
  { required := ["question"]
  , discovered := []
  , defaults := [(CLINICAL, some "True"), (SUPPLEMENTARY, some "False"),
                 ("dummy_file", none)]
  , configPriority := 100
  , attributes := [CLINICAL] }

/-- The string demo1's extract writes to the workspace
(plugins/demo1/plugin.py line 48). -/
def demo1Question : String := "What do you get if you multiply six by nine?"

/-- The workspace artifact written by demo1's extract
(plugins/demo1/plugin.py line 49), recorded as a path and content pair. -/
def demo1WorkspaceWrites : List (String × String) :=
  [("question.txt", demo1Question)]

/-- demo1's extract (plugins/demo1/plugin.py lines 24 to 50): the plugin data
object with its name, the priorities and attributes echoed from the finalized
section, a merge input contributing two gene records to the
gene_information_merger element, and empty results. -/
def demo1ExtractData (identifier : String) (config : IniSection) : JVal :=
  .obj [
    ("plugin_name", .str (identifier ++ " plugin")),
    ("priorities", getMyPriorities config),
    ("attributes", getMyAttributes config),
    ("merge_inputs", .obj [("gene_information_merger", .arr [
      .obj [("Gene", .str "KRAS"),
            ("Gene_URL", .str "https://www.oncokb.org/gene/KRAS"),
            ("Chromosome", .str "12p12.1"),
            ("Summary", .str "KRAS, a GTPase which functions as an upstream regulator of the MAPK and PI3K pathways, is frequently mutated in various cancer types including pancreatic, colorectal and lung cancers.")],
      .obj [("Gene", .str "PIK3CA"),
            ("Gene_URL", .str "https://www.oncokb.org/gene/PIK3CA"),
            ("Chromosome", .str "3q26.32"),
            ("Summary", .str "PIK3CA, the catalytic subunit of PI3-kinase, is frequently mutated in a diverse range of cancers including breast, endometrial and cervical cancers.")]])]),
    ("results", .obj [])
  ]

/-- demo1's render (plugins/demo1/plugin.py lines 52 to 54): the schema guard of
the base render runs first (a failure does not silently render), then the single
document fragment is returned. -/
def demo1Render (identifier : String) (data : JVal) : Except Err String :=
  if validateData data then .ok "<h3>TODO demo1 plugin output goes here</h3>"
  else .error (.validationError identifier)

/-- The demo1 plugin as a plugin implementation: its declared parameters, no
discovered-parameter computation, and its extract and render functions. -/
def demo1Impl : PluginImpl :=
  { spec := demo1Spec
  , discover := fun s => s
  , extractFn := demo1ExtractData
  , renderFn := demo1Render }

/-- Modelled from the spec (section 2; djerba.core.configure is not under src):
the core configurer handles the reserved core section; the spec declares no
required or discovered parameter for it, so its parameter specification is
empty, and it contributes no plugin data or fragment of its own. -/
def coreConfigurerImpl : PluginImpl :=
  { spec := { required := [], discovered := [], defaults := [],
              configPriority := 0, attributes := [] }
  , discover := fun s => s
  , extractFn := fun _ _ => .obj []
  , renderFn := fun _ _ => .ok "" }

/-- A registry with the demo1 plugin under its identifier. -/
def demoRegistry : String → Option PluginImpl :=
  fun identifier => if identifier = "demo1" then some demo1Impl else none

/-- The end-to-end scenario configuration of the spec (section 8, property 6):
one core section and one demo1 section declaring its required parameter. -/
def demoConfig : Config :=
  [(CORE, [("author", some "Test Author")]),
   ("demo1", [("question", some "What is six times nine?")])]

mutual

/-- Structural equality of JSON values, as Python equality of parsed JSON. -/
def jvalBEq : JVal → JVal → Bool
  | .null, .null => true
  | .bool a, .bool c => a == c
  | .num a, .num c => a == c
  | .str a, .str c => a == c
  | .arr xs, .arr ys => jarrBEq xs ys
  | .obj xs, .obj ys => jobjBEq xs ys
  | _, _ => false

/-- Elementwise equality of JSON arrays. -/
def jarrBEq : List JVal → List JVal → Bool
  | [], [] => true
  | x :: xs, y :: ys => jvalBEq x y && jarrBEq xs ys
  | _, _ => false

/-- Fieldwise equality of JSON objects. -/
def jobjBEq : List (String × JVal) → List (String × JVal) → Bool
  | [], [] => true
  | (k, v) :: xs, (k2, v2) :: ys => k == k2 && jvalBEq v v2 && jobjBEq xs ys
  | _, _ => false

end

/-- Ordered-dictionary insertion for gene dictionaries whose keys are JSON
values (Python dict keys may be any hashable value, in particular the None
produced by gene.get when the Gene key is absent). -/
def geneDictInsert (m : List (JVal × List (String × JVal))) (k : JVal)
    (v : List (String × JVal)) : List (JVal × List (String × JVal)) :=
  match m with
  | [] => [(k, v)]
  | kv :: rest =>
    if jvalBEq kv.1 k then (k, v) :: rest else kv :: geneDictInsert rest k v

/-- Rendering of a gene-name key inside an error message (Python string
interpolation; only used in message text, structured values rendered crudely). -/
def jnameStr : JVal → String
  | .null => "None"
  | .bool b => toString b
  | .num n => toString n
  | .str s => s
  | .arr _ => "array"
  | .obj _ => "object"

/-- The state of a simple reader (simple/reader.py lines 14 to 29): the
permitted attribute-name sets derived from the schema, the gene metrics
dictionary and the sample info dictionary. -/
structure ReaderState where
  permitted_gene_attributes : List String
  permitted_sample_attributes : List String
  gene_metrics : List (JVal × List (String × JVal))
  sample_info : List (String × JVal)

/-- Dictionary lookup inside a JSON object; none when the key is absent or the
value is not an object (the source conflates the resulting KeyError and
TypeError into its single RuntimeError). -/
def jget (v : JVal) (k : String) : Option JVal :=
  match v with
  | .obj fields => alookup fields k
  | _ => none

/-- The gene attribute names permitted by a schema
(simple/reader.py lines 20 to 22): the keys of
schema properties gene_metrics items properties. -/
def geneProps (schema : JVal) : Option (List String) := do
  let p ← jget schema "properties"
  let gm ← jget p "gene_metrics"
  let it ← jget gm "items"
  let ip ← jget it "properties"
  match ip with
  | .obj fields => some (fields.map Prod.fst)
  | _ => none

/-- The sample attribute names permitted by a schema
(simple/reader.py lines 23 to 25): the keys of
schema properties sample_info properties. -/
def sampleProps (schema : JVal) : Option (List String) := do
  let p ← jget schema "properties"
  let si ← jget p "sample_info"
  let sp ← jget si "properties"
  match sp with
  | .obj fields => some (fields.map Prod.fst)
  | _ => none

/-- The reader superclass constructor (simple/reader.py lines 14 to 29): derive
both permitted attribute-name sets from the schema, failing with the
RuntimeError of line 27 when the expected keys are missing; gene metrics and
sample info start empty.  The schema file read of line 17 is modelled by taking
the parsed schema value directly. -/
def reader_init (schema : JVal) : Except Err ReaderState :=
  match geneProps schema, sampleProps schema with
  | some g, some s => .ok ⟨g, s, [], []⟩
  | _, _ => .error (.runtimeError "Bad schema format; could not find expected keys")

/-- Set equality of attribute-name sets (the source compares Python sets). -/
def nameSetEq (a b : List String) : Bool :=
  a.all (fun x => b.contains x) && b.all (fun x => a.contains x)

/-- The gene loop of find_gene_attribute_errors (simple/reader.py lines 70 to
82): the first gene with a non-empty attribute set fixes the expected names;
later genes whose name set differs get an inconsistency error; every name not in
the permitted gene set gets a schema error. -/
def findGeneErrLoop (permitted : List String) (expected : List String) :
    List (JVal × List (String × JVal)) → List String
  | [] => []
  | (gname, g) :: rest =>
    let names := g.map Prod.fst
    let mismatch :=
      if expected.length == 0 then []
      else if nameSetEq names expected then []
      else ["Gene " ++ jnameStr gname ++ " has inconsistent attribute names"]
    let bad := names.filterMap (fun n =>
      if permitted.contains n then none
      else some ("Attribute " ++ n ++ " on gene " ++ jnameStr gname ++
                 " is not defined in schema"))
    let expected2 := if expected.length == 0 then names else expected
    mismatch ++ bad ++ findGeneErrLoop permitted expected2 rest

/-- reader.find_gene_attribute_errors (simple/reader.py lines 68 to 82). -/
def find_gene_attribute_errors (r : ReaderState) : List String :=
  findGeneErrLoop r.permitted_gene_attributes [] r.gene_metrics

/-- reader.find_sample_attribute_errors (simple/reader.py lines 84 to 90): every
sample_info attribute name is checked for membership in
permitted_gene_attributes (line 88); permitted_sample_attributes is not
consulted. -/
def find_sample_attribute_errors (r : ReaderState) : List String :=
  (r.sample_info.map Prod.fst).filterMap (fun name =>
    if r.permitted_gene_attributes.contains name then none
    else some ("Attribute " ++ name ++ " in sample_info is not defined in schema"))

/-- reader.validate_with_schema (simple/reader.py lines 92 to 100): true exactly
when both error lists are empty. -/
def validate_with_schema (r : ReaderState) : Bool :=
  let gene_errors := find_gene_attribute_errors r
  let sample_errors := find_sample_attribute_errors r
  gene_errors.length == 0 && sample_errors.length == 0

/-- The config dictionary consumed by json_reader, restricted to the two keys it
reads: gene_metrics (an array of gene dictionaries) and sample_info (an
attribute dictionary); an absent key gives none, as Python dict.get. -/
structure ReaderConfig where
  gene_metrics : Option (List (List (String × JVal)))
  sample_info : Option (List (String × JVal))

/-- The gene dictionary built by json_reader's constructor
(simple/reader.py lines 134 to 136): each gene dictionary is inserted under its
Gene value, None when the Gene key is absent. -/
def buildGeneDict (genes : List (List (String × JVal))) :
    List (JVal × List (String × JVal)) :=
  genes.foldl (fun acc g => geneDictInsert acc ((alookup g "Gene").getD .null) g) []

/-- json_reader's constructor (simple/reader.py lines 132 to 138): the
superclass constructor, the gene dictionary build (iterating a missing
gene_metrics value raises TypeError), the sample_info assignment, then the
validate_with_schema call of line 138 whose boolean result is discarded (with a
None sample_info that call raises AttributeError on None keys). -/
def json_reader_init (config : ReaderConfig) (schema : JVal) :
    Except Err ReaderState :=
  match reader_init schema with
  | .error e => .error e
  | .ok base =>
    match config.gene_metrics with
    | none => .error (.typeError "NoneType object is not iterable")
    | some genes =>
      let gm := buildGeneDict genes
      match config.sample_info with
      | none => .error (.attributeError "keys")
      | some si =>
        let r : ReaderState :=
          { base with gene_metrics := gm, sample_info := si }
        let _ := validate_with_schema r
        .ok r

/-- The demo1 section of the scenario configuration before configure. -/
def demoSectionIn : IniSection := [("question", some "What is six times nine?")]

/-- Report data as produced by a successful extract over the scenario
configuration: core fields from the core section, one demo1 entry. -/
def demoReportData : ReportData :=
  ⟨[("author", .str "Test Author")],
   [("demo1", demo1ExtractData "demo1" demoSectionIn)]⟩

/-- A test plugin whose extract output is not a valid plugin data object. -/
def badDataPlugin : PluginImpl :=
  { spec := { required := [], discovered := [], defaults := [],
              configPriority := 0, attributes := [] }
  , discover := fun s => s
  , extractFn := fun _ _ => .str "not a plugin data object"
  , renderFn := fun _ _ => .ok "" }

/-- A test plugin declaring a required parameter with no default. -/
def needyPlugin : PluginImpl :=
  { spec := { required := ["api_key"], discovered := [], defaults := [],
              configPriority := 0, attributes := [] }
  , discover := fun s => s
  , extractFn := fun _ _ => .obj []
  , renderFn := fun _ _ => .ok "" }

/-- A registry with the demo1 plugin plus the two test plugins. -/
def wideRegistry : String → Option PluginImpl :=
  fun identifier =>
    if identifier = "demo1" then some demo1Impl
    else if identifier = "bad" then some badDataPlugin
    else if identifier = "needy" then some needyPlugin
    else none

/-- A schema with gene attribute names Gene and expression and the single sample
attribute name tumor_purity, shaped as simple/reader.py expects. -/
def schemaW : JVal :=
  .obj [("properties", .obj [
    ("gene_metrics", .obj [("items", .obj [("properties", .obj [
      ("Gene", .obj []), ("expression", .obj [])])])]),
    ("sample_info", .obj [("properties", .obj [("tumor_purity", .obj [])])])])]

/-- The reader state produced by the superclass constructor on schemaW. -/
def baseW : ReaderState := ⟨["Gene", "expression"], ["tumor_purity"], [], []⟩

/-- A json_reader config whose gene dictionary carries an attribute name outside
the schema (so validate_with_schema is false) and whose sample_info attribute is
legal for sample_info but not a gene attribute. -/
def readerCfgW : ReaderConfig :=
  ⟨some [[("Gene", .str "KRAS"), ("oddball", .num 7)]],
   some [("tumor_purity", .num 1)]⟩

/-- The reader state json_reader builds from readerCfgW and schemaW. -/
def readerW : ReaderState :=
  ⟨["Gene", "expression"], ["tumor_purity"],
   [(.str "KRAS", [("Gene", .str "KRAS"), ("oddball", .num 7)])],
   [("tumor_purity", .num 1)]⟩

/-- The loader state after the single demo1 load of the scenario run. -/
def demoLoaderAfter : LoaderState :=
  ⟨[("demo1", ⟨"demo1", demo1Impl, 0⟩)], 1⟩

/-- Lookup distributes over append when the key misses the first list. -/
theorem alookup_append_none {α : Type} {l1 : List (String × α)} {k : String}
    (h : alookup l1 k = none) (l2 : List (String × α)) :
    alookup (l1 ++ l2) k = alookup l2 k := by
  induction l1 with
  | nil => rfl
  | cons kv rest ih =>
    simp only [alookup] at h ⊢
    by_cases hk : kv.1 = k
    · simp [hk] at h
    · simp only [hk, if_false] at h ⊢
      exact ih h

/-- Lookup distributes over append when the key hits the first list. -/
theorem alookup_append_some {α : Type} {l1 : List (String × α)} {k : String}
    {v : α} (h : alookup l1 k = some v) (l2 : List (String × α)) :
    alookup (l1 ++ l2) k = some v := by
  induction l1 with
  | nil => simp [alookup] at h
  | cons kv rest ih =>
    simp only [alookup] at h ⊢
    by_cases hk : kv.1 = k
    · simpa [hk] using h
    · simp only [hk, if_false] at h ⊢
      exact ih h

/-- Inserting an absent key appends it at the end of the dictionary. -/
theorem dictInsert_append {α : Type} {m : List (String × α)} {k : String}
    (h : alookup m k = none) (v : α) :
    dictInsert m k v = m ++ [(k, v)] := by
  induction m with
  | nil => rfl
  | cons kv rest ih =>
    simp only [alookup] at h
    simp only [dictInsert]
    by_cases hk : kv.1 = k
    · simp [hk] at h
    · simp only [hk, if_false] at h ⊢
      rw [ih h]
      rfl

/-- C6: the claim says each phase validates the output destination's writability
before any computation and writes only after full success.  The code contradicts
this for configure and extract: main.init assigns self.path_validator but lines
33 and 53 read self.validator, an attribute that is never assigned, so any call
of configure or extract with an output path raises AttributeError instead of
validating writability; only render (line 70) uses the assigned attribute and
behaves as claimed.  This theorem evaluates the embedding at such failing
inputs: configure and extract abort with the AttributeError, while render with
an output path succeeds. -/
theorem C6_output_preflight_attribute_error :
    configurePhase demoRegistry coreConfigurerImpl (fun _ => true) freshLoader
        (some "config_out.ini") demoConfig = .error (.attributeError "validator")
    ∧ extractPhase demoRegistry (fun _ => true) freshLoader
        (some "djerba_report.json") demoConfig = .error (.attributeError "validator")
    ∧ (∃ out, renderPhase demoRegistry (fun _ => true) freshLoader
        (some "djerba_report.html") demoReportData = .ok out) :=
  ⟨rfl, rfl, ⟨_, rfl⟩⟩

/-- C8: demo1 declares question as its only required parameter and registers the
defaults clinical true, supplementary false and dummy_file null at construction;
for every finalized configuration section its extract returns plugin data whose
results field is the empty object and whose merge_inputs maps
gene_information_merger to exactly two gene records, and its render returns the
single document fragment. -/
theorem C8_demo1_contract :
    demo1Spec.required = ["question"]
    ∧ demo1Spec.defaults = [(CLINICAL, some "True"), (SUPPLEMENTARY, some "False"),
        ("dummy_file", none)]
    ∧ (∀ identifier config,
        jget (demo1ExtractData identifier config) "results" = some (.obj []))
    ∧ (∀ identifier config, ∃ r1 r2,
        jget (demo1ExtractData identifier config) "merge_inputs"
          = some (.obj [("gene_information_merger", .arr [r1, r2])]))
    ∧ (∀ identifier config,
        demo1Render identifier (demo1ExtractData identifier config)
          = .ok "<h3>TODO demo1 plugin output goes here</h3>") :=
  ⟨rfl, rfl, fun _ _ => rfl, fun _ _ => ⟨_, _, rfl⟩, fun _ _ => rfl⟩

/-- C9: find_sample_attribute_errors checks every sample_info attribute name
against the permitted gene attribute set derived from the schema's gene_metrics
properties (reader.py line 88) and never consults the permitted sample attribute
set: a sample_info name that is legal under the schema's sample_info properties
but absent from its gene_metrics properties always yields a non-empty error
list, and the result is invariant under arbitrary changes to the permitted
sample attribute set. -/
theorem C9_sample_check_uses_gene_set (schema : JVal) (base r : ReaderState)
    (name : String)
    (h1 : reader_init schema = .ok base)
    (h2 : r.permitted_gene_attributes = base.permitted_gene_attributes)
    (h3 : name ∈ r.sample_info.map Prod.fst)
    (h4 : name ∈ base.permitted_sample_attributes)
    (h5 : base.permitted_gene_attributes.contains name = false) :
    find_sample_attribute_errors r ≠ []
    ∧ ∀ l, find_sample_attribute_errors
        { r with permitted_sample_attributes := l }
        = find_sample_attribute_errors r := by
  constructor
  · intro hempty
    have hm : ("Attribute " ++ name ++ " in sample_info is not defined in schema")
        ∈ find_sample_attribute_errors r := by
      apply List.mem_filterMap.mpr
      refine ⟨name, h3, ?_⟩
      rw [h2, h5]
      simp
    rw [hempty] at hm
    exact List.not_mem_nil _ hm
  · intro l
    rfl

/-- Witness for C9 at a concrete schema and reader: the sample attribute
tumor_purity is declared under sample_info properties but not under gene_metrics
properties, and the check reports it as undefined. -/
theorem C9_sample_check_witness :
    find_sample_attribute_errors
      ⟨["Gene", "expression"], ["tumor_purity"], [], [("tumor_purity", .num 1)]⟩ ≠ []
    ∧ ∀ l, find_sample_attribute_errors
        ⟨["Gene", "expression"], l, [], [("tumor_purity", .num 1)]⟩
        = find_sample_attribute_errors
          ⟨["Gene", "expression"], ["tumor_purity"], [], [("tumor_purity", .num 1)]⟩ :=
  C9_sample_check_uses_gene_set schemaW baseW
    ⟨["Gene", "expression"], ["tumor_purity"], [], [("tumor_purity", .num 1)]⟩
    "tumor_purity" rfl rfl (by decide) (by decide) (by decide)

/-- C10: json_reader's constructor calls validate_with_schema and discards its
boolean result (reader.py line 138), so whenever the schema is well formed and
the config supplies its two keys, construction succeeds with the data accepted
as given, independently of whether validation would pass. -/
theorem C10_json_reader_discards_validation (config : ReaderConfig)
    (schema : JVal) (genes : List (List (String × JVal)))
    (si : List (String × JVal)) (base : ReaderState)
    (hg : config.gene_metrics = some genes)
    (hs : config.sample_info = some si)
    (hb : reader_init schema = .ok base) :
    json_reader_init config schema
      = .ok { base with gene_metrics := buildGeneDict genes, sample_info := si } := by
  simp [json_reader_init, hb, hg, hs]

/-- Witness for C10 at a concrete config and schema on which
validate_with_schema is false (a gene attribute outside the schema and a sample
attribute that line 88 checks against the gene set): construction still
succeeds. -/
theorem C10_json_reader_witness :
    json_reader_init readerCfgW schemaW = .ok readerW
    ∧ validate_with_schema readerW = false :=
  ⟨C10_json_reader_discards_validation readerCfgW schemaW _ _ baseW rfl rfl rfl,
   by decide⟩

/-- A successful render loop yields one fragment per plugins-map entry. -/
theorem renderLoop_length (reg : String → Option PluginImpl) :
    ∀ (l : List (String × JVal)) (st : LoaderState) (frags : List String)
      (st' : LoaderState), renderLoop reg st l = .ok (frags, st') →
      frags.length = l.length := by
  intro l
  induction l with
  | nil =>
    intro st frags st' h
    simp only [renderLoop] at h
    cases h
    rfl
  | cons hd tl ih =>
    intro st frags st' h
    obtain ⟨nm, pd⟩ := hd
    simp only [renderLoop] at h
    split at h
    · cases h
    · split at h
      · cases h
      · next frags2 st2 heq2 =>
        cases h
        simp [ih _ _ _ heq2]

/-- C1: a successful main.render returns the single string obtained by joining
the core header, one rendered fragment per entry of the plugins map taken in
insertion order, and the core footer, with exactly one newline between
consecutive elements; with zero plugins the document is the header, one newline
and the footer.  Header and footer depend on core-level fields only. -/
theorem C1_render_document_composition (reg : String → Option PluginImpl)
    (w : String → Bool) (st : LoaderState) (data : ReportData) (html : String)
    (writes : List String) (st' : LoaderState)
    (h : renderPhase reg w st none data = .ok (html, writes, st')) :
    ∃ frags : List String,
      renderLoop reg st data.plugins = .ok (frags, st')
      ∧ frags.length = data.plugins.length
      ∧ html = joinWith "\n"
          ([(coreRenderRun data.core).1] ++ frags ++ [(coreRenderRun data.core).2])
      ∧ (data.plugins = [] →
          html = (coreRenderRun data.core).1 ++ "\n" ++ (coreRenderRun data.core).2) := by
  simp only [renderPhase, outputPreflight] at h
  split at h
  · cases h
  · next frags st2 hl =>
    cases h
    refine ⟨frags, hl, renderLoop_length reg data.plugins st frags _ hl, rfl, ?_⟩
    intro hnil
    rw [hnil] at hl
    simp only [renderLoop] at hl
    cases hl
    rfl

/-- Witness for C1 on the scenario report data: one demo1 entry, document equal
to header, fragment and footer joined by single newlines. -/
theorem C1_render_document_witness :
    ∃ frags : List String,
      renderLoop demoRegistry freshLoader demoReportData.plugins
        = .ok (frags, demoLoaderAfter)
      ∧ frags.length = demoReportData.plugins.length
      ∧ "<header title=>\n<h3>TODO demo1 plugin output goes here</h3>\n<footer author=Test Author>"
          = joinWith "\n" ([(coreRenderRun demoReportData.core).1] ++ frags
              ++ [(coreRenderRun demoReportData.core).2])
      ∧ (demoReportData.plugins = [] →
          "<header title=>\n<h3>TODO demo1 plugin output goes here</h3>\n<footer author=Test Author>"
            = (coreRenderRun demoReportData.core).1 ++ "\n"
              ++ (coreRenderRun demoReportData.core).2) :=
  C1_render_document_composition demoRegistry (fun _ => true) freshLoader
    demoReportData _ [] demoLoaderAfter rfl

/-- A successful prefix followed by a failing continuation fails the whole
configure loop with the continuation's error. -/
theorem configureList_append_error (reg : String → Option PluginImpl)
    (core : PluginImpl) :
    ∀ (l1 l2 : List (String × IniSection)) (st : LoaderState) (cfg1 : Config)
      (st1 : LoaderState) (e : Err),
      configureList reg core st l1 = .ok (cfg1, st1) →
      configureList reg core st1 l2 = .error e →
      configureList reg core st (l1 ++ l2) = .error e := by
  intro l1
  induction l1 with
  | nil =>
    intro l2 st cfg1 st1 e h h2
    simp only [configureList] at h
    cases h
    simpa using h2
  | cons hd tl ih =>
    intro l2 st cfg1 st1 e h h2
    obtain ⟨nm, s⟩ := hd
    simp only [configureList, List.cons_append] at h ⊢
    split at h
    · cases h
    · next s' stA heq =>
      split at h
      · cases h
      · next cfg2 stB heq2 =>
        cases h
        simp only [List.append_eq]
        rw [ih l2 stA cfg2 st1 e heq2 h2]

/-- A successful prefix followed by a failing continuation fails the whole
extract loop with the continuation's error. -/
theorem extractLoop_append_error (reg : String → Option PluginImpl) :
    ∀ (l1 l2 : List (String × IniSection)) (st : LoaderState)
      (acc acc1 : List (String × JVal)) (st1 : LoaderState) (e : Err),
      extractLoop reg st acc l1 = .ok (acc1, st1) →
      extractLoop reg st1 acc1 l2 = .error e →
      extractLoop reg st acc (l1 ++ l2) = .error e := by
  intro l1
  induction l1 with
  | nil =>
    intro l2 st acc acc1 st1 e h h2
    simp only [extractLoop] at h
    cases h
    simpa using h2
  | cons hd tl ih =>
    intro l2 st acc acc1 st1 e h h2
    obtain ⟨nm, s⟩ := hd
    simp only [extractLoop, List.cons_append] at h ⊢
    split at h
    case isTrue hcore =>
      simp only [List.append_eq, if_pos hcore]
      exact ih l2 st acc acc1 st1 e h h2
    case isFalse hncore =>
      split at h
      · cases h
      · next pd stA heq =>
        simp only [List.append_eq, if_neg hncore]
        exact ih l2 stA (dictInsert acc nm pd) acc1 st1 e h h2

/-- A successful prefix followed by a failing continuation fails the whole
render loop with the continuation's error. -/
theorem renderLoop_append_error (reg : String → Option PluginImpl) :
    ∀ (l1 l2 : List (String × JVal)) (st : LoaderState) (frags1 : List String)
      (st1 : LoaderState) (e : Err),
      renderLoop reg st l1 = .ok (frags1, st1) →
      renderLoop reg st1 l2 = .error e →
      renderLoop reg st (l1 ++ l2) = .error e := by
  intro l1
  induction l1 with
  | nil =>
    intro l2 st frags1 st1 e h h2
    simp only [renderLoop] at h
    cases h
    simpa using h2
  | cons hd tl ih =>
    intro l2 st frags1 st1 e h h2
    obtain ⟨nm, pd⟩ := hd
    simp only [renderLoop, List.cons_append] at h ⊢
    split at h
    · cases h
    · next frag stA heq =>
      split at h
      · cases h
      · next frags2 stB heq2 =>
        cases h
        simp only [List.append_eq]
        rw [ih l2 stA frags2 st1 e heq2 h2]

/-- C4: each phase is all-or-nothing.  When every section before some failing
section succeeds and that section's handler (or its validation) fails with an
error, the whole phase call evaluates to that error: no partial configuration,
report data or document is returned, and (writes being part of the success
value only) no output file is written for the phase. -/
theorem C4_phase_all_or_nothing :
    (∀ (reg : String → Option PluginImpl) (core : PluginImpl)
       (w : String → Bool) (st : LoaderState) (pre : List (String × IniSection))
       (nm : String) (s : IniSection) (post : List (String × IniSection))
       (cfg1 : Config) (st1 : LoaderState) (e : Err),
       configureList reg core st pre = .ok (cfg1, st1) →
       configureHandler reg core st1 nm s = .error e →
       configurePhase reg core w st none (pre ++ (nm, s) :: post) = .error e)
    ∧ (∀ (reg : String → Option PluginImpl) (w : String → Bool)
       (st : LoaderState) (pre : List (String × IniSection)) (nm : String)
       (s : IniSection) (post : List (String × IniSection))
       (acc1 : List (String × JVal)) (st1 : LoaderState) (e : Err),
       nm ≠ CORE →
       extractLoop reg st [] pre = .ok (acc1, st1) →
       extractHandler reg st1 nm s = .error e →
       extractPhase reg w st none (pre ++ (nm, s) :: post) = .error e)
    ∧ (∀ (reg : String → Option PluginImpl) (w : String → Bool)
       (st : LoaderState) (pre : List (String × JVal)) (nm : String) (pd : JVal)
       (post : List (String × JVal)) (frags1 : List String) (st1 : LoaderState)
       (e : Err) (core : List (String × JVal)),
       renderLoop reg st pre = .ok (frags1, st1) →
       renderHandler reg st1 nm pd = .error e →
       renderPhase reg w st none ⟨core, pre ++ (nm, pd) :: post⟩ = .error e) := by
  refine ⟨?_, ?_, ?_⟩
  · intro reg core w st pre nm s post cfg1 st1 e hpre hh
    have hcont : configureList reg core st1 ((nm, s) :: post) = .error e := by
      simp [configureList, hh]
    have hall := configureList_append_error reg core pre ((nm, s) :: post)
      st cfg1 st1 e hpre hcont
    simp [configurePhase, outputPreflight, hall]
  · intro reg w st pre nm s post acc1 st1 e hn hpre hh
    have hcont : extractLoop reg st1 acc1 ((nm, s) :: post) = .error e := by
      simp [extractLoop, hn, hh]
    have hall := extractLoop_append_error reg pre ((nm, s) :: post)
      st [] acc1 st1 e hpre hcont
    simp [extractPhase, outputPreflight, coreExtractRun, hall]
  · intro reg w st pre nm pd post frags1 st1 e core hpre hh
    have hcont : renderLoop reg st1 ((nm, pd) :: post) = .error e := by
      simp [renderLoop, hh]
    have hall := renderLoop_append_error reg pre ((nm, pd) :: post)
      st frags1 st1 e hpre hcont
    simp [renderPhase, outputPreflight, hall]

/-- Witness for C4: a plugin section with a missing required parameter aborts
configure with its Parameter Error, a plugin whose extracted data fails
validation aborts extract with its Validation Error, and a plugins-map entry
whose render fails its schema guard aborts render with that error. -/
theorem C4_phase_all_or_nothing_witness :
    configurePhase wideRegistry coreConfigurerImpl (fun _ => true) freshLoader
        none [("needy", [])] = .error (.paramError "needy" "api_key")
    ∧ extractPhase wideRegistry (fun _ => true) freshLoader none
        [("bad", [])] = .error (.validationError "bad")
    ∧ renderPhase wideRegistry (fun _ => true) freshLoader none
        ⟨[], [("demo1", .null)]⟩ = .error (.validationError "demo1") :=
  ⟨C4_phase_all_or_nothing.1 wideRegistry coreConfigurerImpl (fun _ => true)
      freshLoader [] "needy" [] [] [] freshLoader _ rfl rfl,
   C4_phase_all_or_nothing.2.1 wideRegistry (fun _ => true) freshLoader
      [] "bad" [] [] [] freshLoader _ (by decide) rfl rfl,
   C4_phase_all_or_nothing.2.2 wideRegistry (fun _ => true) freshLoader
      [] "demo1" .null [] [] freshLoader _ [] rfl rfl⟩
/-- Insertion preserves a property that holds of all entries and of the
inserted pair. -/
theorem dictInsert_forall {α : Type} (P : String × α → Prop) :
    ∀ (m : List (String × α)) (k : String) (v : α),
      (∀ kv ∈ m, P kv) → P (k, v) → ∀ kv ∈ dictInsert m k v, P kv := by
  intro m
  induction m with
  | nil =>
    intro k v _ hv kv hkv
    simp only [dictInsert, List.mem_singleton] at hkv
    cases hkv
    exact hv
  | cons hd tl ih =>
    intro k v hm hv kv hkv
    simp only [dictInsert] at hkv
    by_cases hk : hd.1 = k
    · rw [if_pos hk] at hkv
      rcases List.mem_cons.mp hkv with h1 | h2
      · cases h1; exact hv
      · exact hm kv (List.mem_cons_of_mem _ h2)
    · rw [if_neg hk] at hkv
      rcases List.mem_cons.mp hkv with h1 | h2
      · cases h1; exact hm hd (List.mem_cons_self _ _)
      · exact ih k v (fun kv2 hkv2 => hm kv2 (List.mem_cons_of_mem _ hkv2)) hv kv h2

/-- A successful extract handler returns plugin data that passed validation. -/
theorem extractHandler_ok_validates (reg : String → Option PluginImpl)
    (st : LoaderState) (nm : String) (s : IniSection) (pd : JVal)
    (st1 : LoaderState) (h : extractHandler reg st nm s = .ok (pd, st1)) :
    validateData pd = true := by
  simp only [extractHandler] at h
  split at h
  · cases h
  · split at h
    case isTrue hv => cases h; exact hv
    case isFalse => cases h

/-- Every plugins-map entry produced by a successful extract loop validates,
provided the accumulator's entries do. -/
theorem extractLoop_validates (reg : String → Option PluginImpl) :
    ∀ (l : List (String × IniSection)) (st : LoaderState)
      (acc plugins : List (String × JVal)) (st' : LoaderState),
      extractLoop reg st acc l = .ok (plugins, st') →
      (∀ kv ∈ acc, validateData kv.2 = true) →
      ∀ kv ∈ plugins, validateData kv.2 = true := by
  intro l
  induction l with
  | nil =>
    intro st acc plugins st' h hacc
    simp only [extractLoop] at h
    cases h
    exact hacc
  | cons hd tl ih =>
    intro st acc plugins st' h hacc
    obtain ⟨nm, s⟩ := hd
    simp only [extractLoop] at h
    split at h
    case isTrue => exact ih st acc plugins st' h hacc
    case isFalse hncore =>
      split at h
      · cases h
      · next pd stA heq =>
        exact ih stA (dictInsert acc nm pd) plugins st' h
          (dictInsert_forall (fun kv => validateData kv.2 = true) acc nm pd hacc
            (extractHandler_ok_validates reg st nm s pd stA heq))

/-- C5: every plugin data object inserted into the plugins map by main.extract
has first passed schema validation, so every entry of a returned report data
validates; and when a loaded plugin's extracted data fails validation, extract
fails with the Validation Error of that section and returns no report data. -/
theorem C5_extract_validation_gate :
    (∀ (reg : String → Option PluginImpl) (w : String → Bool) (st : LoaderState)
       (cfg : Config) (data : ReportData) (writes : List String)
       (st' : LoaderState),
       extractPhase reg w st none cfg = .ok (data, writes, st') →
       ∀ kv ∈ data.plugins, validateData kv.2 = true)
    ∧ (∀ (reg : String → Option PluginImpl) (w : String → Bool)
       (st : LoaderState) (pre : List (String × IniSection)) (nm : String)
       (s : IniSection) (post : List (String × IniSection))
       (acc1 : List (String × JVal)) (st1 : LoaderState) (inst : LoadedPlugin)
       (stA : LoaderState),
       nm ≠ CORE →
       extractLoop reg st [] pre = .ok (acc1, st1) →
       pluginLoad reg st1 nm = .ok (inst, stA) →
       validateData (inst.impl.extractFn inst.identifier s) = false →
       extractPhase reg w st none (pre ++ (nm, s) :: post)
         = .error (.validationError nm)) := by
  constructor
  · intro reg w st cfg data writes st' h
    simp only [extractPhase, outputPreflight, coreExtractRun] at h
    split at h
    · cases h
    · next plugins stA heq =>
      cases h
      exact extractLoop_validates reg cfg st [] plugins _ heq
        (fun kv hkv => absurd hkv (List.not_mem_nil kv))
  · intro reg w st pre nm s post acc1 st1 inst stA hn hpre hload hbad
    have hh : extractHandler reg st1 nm s = .error (.validationError nm) := by
      simp [extractHandler, hload, hbad]
    have hcont : extractLoop reg st1 acc1 ((nm, s) :: post)
        = .error (.validationError nm) := by
      simp [extractLoop, hn, hh]
    have hall := extractLoop_append_error reg pre ((nm, s) :: post)
      st [] acc1 st1 (.validationError nm) hpre hcont
    simp [extractPhase, outputPreflight, coreExtractRun, hall]

/-- Witness for C5: on the scenario run every returned entry validates, and a
plugin whose extracted data is invalid aborts extract with its Validation
Error. -/
theorem C5_extract_validation_witness :
    (∀ kv ∈ demoReportData.plugins, validateData kv.2 = true)
    ∧ extractPhase wideRegistry (fun _ => true) freshLoader none
        ([(CORE, [])] ++ ("bad", [("x", some "1")]) :: [])
        = .error (.validationError "bad") :=
  ⟨C5_extract_validation_gate.1 demoRegistry (fun _ => true) freshLoader
      demoConfig demoReportData [] demoLoaderAfter rfl,
   C5_extract_validation_gate.2 wideRegistry (fun _ => true) freshLoader
      [(CORE, [])] "bad" [("x", some "1")] [] [] freshLoader
      ⟨"bad", badDataPlugin, 0⟩ ⟨[("bad", ⟨"bad", badDataPlugin, 0⟩)], 1⟩
      (by decide) rfl rfl rfl⟩

/-- The plugins map built by a successful extract loop lists, after the
accumulator's keys, exactly the non-core section names in configuration order
(section names being unique and fresh for the accumulator). -/
theorem extractLoop_keys (reg : String → Option PluginImpl) :
    ∀ (l : List (String × IniSection)) (st : LoaderState)
      (acc plugins : List (String × JVal)) (st' : LoaderState),
      extractLoop reg st acc l = .ok (plugins, st') →
      (∀ nm, nm ∈ l.map Prod.fst → alookup acc nm = none) →
      (l.map Prod.fst).Nodup →
      plugins.map Prod.fst
        = acc.map Prod.fst ++ (l.map Prod.fst).filter (fun x => x ≠ CORE) := by
  intro l
  induction l with
  | nil =>
    intro st acc plugins st' h _ _
    simp only [extractLoop] at h
    cases h
    simp
  | cons hd tl ih =>
    intro st acc plugins st' h hfresh hnodup
    obtain ⟨nm, s⟩ := hd
    simp only [extractLoop] at h
    simp only [List.map_cons] at hfresh hnodup ⊢
    split at h
    case isTrue hcore =>
      have := ih st acc plugins st' h
        (fun x hx => hfresh x (List.mem_cons_of_mem _ hx)) hnodup.of_cons
      rw [this]
      simp [List.filter_cons, hcore]
    case isFalse hncore =>
      split at h
      · cases h
      · next pd stA heq =>
        have haccnm : alookup acc nm = none := hfresh nm (List.mem_cons_self _ _)
        have hins : dictInsert acc nm pd = acc ++ [(nm, pd)] :=
          dictInsert_append haccnm pd
        rw [hins] at h
        have hpair := List.nodup_cons.mp hnodup
        have hfresh2 : ∀ x, x ∈ tl.map Prod.fst →
            alookup (acc ++ [(nm, pd)]) x = none := by
          intro x hx
          have hxa : alookup acc x = none := hfresh x (List.mem_cons_of_mem _ hx)
          rw [alookup_append_none hxa]
          have hxnm : nm ≠ x := fun hEq => hpair.1 (hEq ▸ hx)
          simp [alookup, hxnm]
        have := ih stA (acc ++ [(nm, pd)]) plugins st' h hfresh2 hpair.2
        rw [this]
        simp [List.filter_cons, hncore]

/-- C2: the plugins map of the report data returned by main.extract has key
list exactly the non-core section names of the configuration, in configuration
order (hence the same key set with insertion order equal to configuration
order; section names are unique in a parsed configuration). -/
theorem C2_extract_plugins_key_order (reg : String → Option PluginImpl)
    (w : String → Bool) (st : LoaderState) (cfg : Config) (data : ReportData)
    (writes : List String) (st' : LoaderState)
    (hnodup : (cfg.map Prod.fst).Nodup)
    (h : extractPhase reg w st none cfg = .ok (data, writes, st')) :
    data.plugins.map Prod.fst = (cfg.map Prod.fst).filter (fun nm => nm ≠ CORE) := by
  simp only [extractPhase, outputPreflight, coreExtractRun] at h
  split at h
  · cases h
  · next plugins stA heq =>
    cases h
    simpa using extractLoop_keys reg cfg st [] plugins _ heq (fun nm _ => rfl) hnodup

/-- Witness for C2 on the scenario configuration: the plugins map keys are
exactly the one non-core section name demo1. -/
theorem C2_extract_plugins_key_order_witness :
    demoReportData.plugins.map Prod.fst
      = (demoConfig.map Prod.fst).filter (fun nm => nm ≠ CORE) :=
  C2_extract_plugins_key_order demoRegistry (fun _ => true) freshLoader
    demoConfig demoReportData [] demoLoaderAfter (by decide) rfl
/-- After a successful load the instance is cached under its identifier. -/
theorem pluginLoad_ok_lookup (reg : String → Option PluginImpl)
    (st : LoaderState) (identifier : String) (inst : LoadedPlugin)
    (st1 : LoaderState) (h : pluginLoad reg st identifier = .ok (inst, st1)) :
    alookup st1.cache identifier = some inst := by
  simp only [pluginLoad] at h
  split at h
  · next inst2 heq =>
    cases h
    exact heq
  · next heq =>
    split at h
    · cases h
    · next impl himpl =>
      cases h
      rw [alookup_append_none heq]
      simp [alookup]

/-- Loading a cached identifier returns the cached instance and leaves the
loader state unchanged: no construction takes place. -/
theorem pluginLoad_cached (reg : String → Option PluginImpl) (st : LoaderState)
    (identifier : String) (inst : LoadedPlugin)
    (hc : alookup st.cache identifier = some inst) :
    pluginLoad reg st identifier = .ok (inst, st) := by
  simp [pluginLoad, hc]

/-- A load of any identifier preserves every existing cache entry. -/
theorem pluginLoad_preserves (reg : String → Option PluginImpl)
    (st : LoaderState) (id2 : String) (inst2 : LoadedPlugin) (st1 : LoaderState)
    (identifier : String) (inst : LoadedPlugin)
    (h : pluginLoad reg st id2 = .ok (inst2, st1))
    (hc : alookup st.cache identifier = some inst) :
    alookup st1.cache identifier = some inst := by
  simp only [pluginLoad] at h
  split at h
  · cases h
    exact hc
  · split at h
    · cases h
    · cases h
      exact alookup_append_some hc _

/-- A sequence of loads preserves every existing cache entry. -/
theorem loadSeq_preserves (reg : String → Option PluginImpl) :
    ∀ (ids : List String) (st st2 : LoaderState),
      loadSeq reg st ids = .ok st2 →
      ∀ identifier inst, alookup st.cache identifier = some inst →
        alookup st2.cache identifier = some inst := by
  intro ids
  induction ids with
  | nil =>
    intro st st2 h identifier inst hc
    simp only [loadSeq] at h
    cases h
    exact hc
  | cons idh tl ih =>
    intro st st2 h identifier inst hc
    simp only [loadSeq] at h
    split at h
    · cases h
    · next inst1 st1 heq =>
      exact ih st1 st2 h identifier inst
        (pluginLoad_preserves reg st idh inst1 st1 identifier inst heq hc)

/-- A successful configure handler preserves every existing cache entry. -/
theorem configureHandler_cache_preserves (reg : String → Option PluginImpl)
    (core : PluginImpl) (st : LoaderState) (nm : String) (s s' : IniSection)
    (st1 : LoaderState) (h : configureHandler reg core st nm s = .ok (s', st1)) :
    ∀ identifier inst, alookup st.cache identifier = some inst →
      alookup st1.cache identifier = some inst := by
  intro identifier inst hci
  simp only [configureHandler] at h
  split at h
  · cases hcc : contractConfigure nm core s with
    | error e => rw [hcc] at h; simp only [Except.map] at h; cases h
    | ok s2 => rw [hcc] at h; simp only [Except.map] at h; cases h; exact hci
  · split at h
    · cases h
    · next inst0 stA heq =>
      cases hcc : contractConfigure nm inst0.impl s with
      | error e => rw [hcc] at h; simp only [Except.map] at h; cases h
      | ok s2 =>
        rw [hcc] at h; simp only [Except.map] at h; cases h
        exact pluginLoad_preserves reg st nm inst0 _ identifier inst heq hci

/-- A successful extract handler preserves every existing cache entry. -/
theorem extractHandler_cache_preserves (reg : String → Option PluginImpl)
    (st : LoaderState) (nm : String) (s : IniSection) (pd : JVal)
    (st1 : LoaderState) (h : extractHandler reg st nm s = .ok (pd, st1)) :
    ∀ identifier inst, alookup st.cache identifier = some inst →
      alookup st1.cache identifier = some inst := by
  intro identifier inst hci
  simp only [extractHandler] at h
  split at h
  · cases h
  · next inst0 stA heq =>
    split at h
    case isTrue hv =>
      cases h
      exact pluginLoad_preserves reg st nm inst0 _ identifier inst heq hci
    case isFalse => cases h

/-- A successful render handler preserves every existing cache entry. -/
theorem renderHandler_cache_preserves (reg : String → Option PluginImpl)
    (st : LoaderState) (nm : String) (pd : JVal) (frag : String)
    (st1 : LoaderState) (h : renderHandler reg st nm pd = .ok (frag, st1)) :
    ∀ identifier inst, alookup st.cache identifier = some inst →
      alookup st1.cache identifier = some inst := by
  intro identifier inst hci
  simp only [renderHandler] at h
  split at h
  · cases h
  · next inst0 stA heq =>
    cases hr : inst0.impl.renderFn inst0.identifier pd with
    | error e => rw [hr] at h; simp only [Except.map] at h; cases h
    | ok f =>
      rw [hr] at h; simp only [Except.map] at h; cases h
      exact pluginLoad_preserves reg st nm inst0 _ identifier inst heq hci

/-- A successful configure loop preserves every existing cache entry. -/
theorem configureList_cache_preserves (reg : String → Option PluginImpl)
    (core : PluginImpl) :
    ∀ (l : List (String × IniSection)) (st : LoaderState) (cfg : Config)
      (st' : LoaderState), configureList reg core st l = .ok (cfg, st') →
      ∀ identifier inst, alookup st.cache identifier = some inst →
        alookup st'.cache identifier = some inst := by
  intro l
  induction l with
  | nil =>
    intro st cfg st' h identifier inst hc
    simp only [configureList] at h
    cases h
    exact hc
  | cons hd tl ih =>
    intro st cfg st' h identifier inst hc
    obtain ⟨nm, s⟩ := hd
    simp only [configureList] at h
    split at h
    · cases h
    · next s2 stA heq =>
      split at h
      · cases h
      · next cfg2 stB heq2 =>
        cases h
        exact ih stA cfg2 _ heq2 identifier inst
          (configureHandler_cache_preserves reg core st nm s s2 stA heq identifier inst hc)

/-- A successful extract loop preserves every existing cache entry. -/
theorem extractLoop_cache_preserves (reg : String → Option PluginImpl) :
    ∀ (l : List (String × IniSection)) (st : LoaderState)
      (acc plugins : List (String × JVal)) (st' : LoaderState),
      extractLoop reg st acc l = .ok (plugins, st') →
      ∀ identifier inst, alookup st.cache identifier = some inst →
        alookup st'.cache identifier = some inst := by
  intro l
  induction l with
  | nil =>
    intro st acc plugins st' h identifier inst hc
    simp only [extractLoop] at h
    cases h
    exact hc
  | cons hd tl ih =>
    intro st acc plugins st' h identifier inst hc
    obtain ⟨nm, s⟩ := hd
    simp only [extractLoop] at h
    split at h
    case isTrue => exact ih st acc plugins st' h identifier inst hc
    case isFalse =>
      split at h
      · cases h
      · next pd stA heq =>
        exact ih stA (dictInsert acc nm pd) plugins st' h identifier inst
          (extractHandler_cache_preserves reg st nm s pd stA heq identifier inst hc)

/-- A successful render loop preserves every existing cache entry. -/
theorem renderLoop_cache_preserves (reg : String → Option PluginImpl) :
    ∀ (l : List (String × JVal)) (st : LoaderState) (frags : List String)
      (st' : LoaderState), renderLoop reg st l = .ok (frags, st') →
      ∀ identifier inst, alookup st.cache identifier = some inst →
        alookup st'.cache identifier = some inst := by
  intro l
  induction l with
  | nil =>
    intro st frags st' h identifier inst hc
    simp only [renderLoop] at h
    cases h
    exact hc
  | cons hd tl ih =>
    intro st frags st' h identifier inst hc
    obtain ⟨nm, pd⟩ := hd
    simp only [renderLoop] at h
    split at h
    · cases h
    · next frag stA heq =>
      split at h
      · cases h
      · next frags2 stB heq2 =>
        cases h
        exact ih stA frags2 _ heq2 identifier inst
          (renderHandler_cache_preserves reg st nm pd frag stA heq identifier inst hc)

/-- C7: within one run, once an identifier has been loaded, every later load of
it -- after any further loads in the same phase (the loadSeq conjunct) or after
a whole successful configure, extract or render pass over the same shared
loader state -- returns the same cached instance with the loader state
unchanged, so the plugin is not re-constructed and no re-initialization takes
place. -/
theorem C7_loader_idempotent_cache :
    (∀ (reg : String → Option PluginImpl) (st : LoaderState)
       (identifier : String) (inst : LoadedPlugin) (st1 : LoaderState)
       (ids : List String) (st2 : LoaderState),
       pluginLoad reg st identifier = .ok (inst, st1) →
       loadSeq reg st1 ids = .ok st2 →
       pluginLoad reg st2 identifier = .ok (inst, st2))
    ∧ (∀ (reg : String → Option PluginImpl) (core : PluginImpl)
       (st : LoaderState) (l : List (String × IniSection)) (cfg : Config)
       (st' : LoaderState) (identifier : String) (inst : LoadedPlugin),
       configureList reg core st l = .ok (cfg, st') →
       alookup st.cache identifier = some inst →
       pluginLoad reg st' identifier = .ok (inst, st'))
    ∧ (∀ (reg : String → Option PluginImpl) (st : LoaderState)
       (acc : List (String × JVal)) (l : List (String × IniSection))
       (plugins : List (String × JVal)) (st' : LoaderState)
       (identifier : String) (inst : LoadedPlugin),
       extractLoop reg st acc l = .ok (plugins, st') →
       alookup st.cache identifier = some inst →
       pluginLoad reg st' identifier = .ok (inst, st'))
    ∧ (∀ (reg : String → Option PluginImpl) (st : LoaderState)
       (l : List (String × JVal)) (frags : List String) (st' : LoaderState)
       (identifier : String) (inst : LoadedPlugin),
       renderLoop reg st l = .ok (frags, st') →
       alookup st.cache identifier = some inst →
       pluginLoad reg st' identifier = .ok (inst, st')) := by
  refine ⟨?_, ?_, ?_, ?_⟩
  · intro reg st identifier inst st1 ids st2 h1 h2
    exact pluginLoad_cached reg st2 identifier inst
      (loadSeq_preserves reg ids st1 st2 h2 identifier inst
        (pluginLoad_ok_lookup reg st identifier inst st1 h1))
  · intro reg core st l cfg st' identifier inst h hc
    exact pluginLoad_cached reg st' identifier inst
      (configureList_cache_preserves reg core l st cfg st' h identifier inst hc)
  · intro reg st acc l plugins st' identifier inst h hc
    exact pluginLoad_cached reg st' identifier inst
      (extractLoop_cache_preserves reg l st acc plugins st' h identifier inst hc)
  · intro reg st l frags st' identifier inst h hc
    exact pluginLoad_cached reg st' identifier inst
      (renderLoop_cache_preserves reg l st frags st' h identifier inst hc)

/-- Witness for C7: demo1 is constructed once (stamp 0) on its first load; a
repeated load through loadSeq leaves the state unchanged, and a further load
still returns the same instance with the same unchanged state. -/
theorem C7_loader_idempotent_cache_witness :
    pluginLoad demoRegistry demoLoaderAfter "demo1"
      = .ok (⟨"demo1", demo1Impl, 0⟩, demoLoaderAfter) :=
  C7_loader_idempotent_cache.1 demoRegistry freshLoader "demo1"
    ⟨"demo1", demo1Impl, 0⟩ demoLoaderAfter ["demo1"] demoLoaderAfter rfl rfl
/-- A failed contract configure is a Parameter Error naming one of the
section's required or discovered parameters. -/
theorem contractConfigure_error_param (identifier : String) (p : PluginImpl)
    (s : IniSection) (e : Err)
    (h : contractConfigure identifier p s = .error e) :
    ∃ q, e = .paramError identifier q ∧ q ∈ reqDisc p.spec := by
  simp only [contractConfigure, firstNullParam] at h
  split at h
  · next q heq =>
    cases h
    exact ⟨q, rfl, List.mem_of_find?_eq_some heq⟩
  · cases h

/-- After a successful contract configure every required and discovered
parameter of the section is present and non-null. -/
theorem contractConfigure_ok_params (identifier : String) (p : PluginImpl)
    (s s' : IniSection) (h : contractConfigure identifier p s = .ok s') :
    ∀ q ∈ reqDisc p.spec, paramPresent s' q = true := by
  simp only [contractConfigure, firstNullParam] at h
  split at h
  · cases h
  · next heq =>
    cases h
    intro q hq
    have := List.find?_eq_none.mp heq q hq
    simpa using this

/-- A load of a known identifier succeeds. -/
theorem pluginLoad_total (reg : String → Option PluginImpl) (st : LoaderState)
    (nm : String) (hknown : (reg nm).isSome = true) :
    ∃ inst st1, pluginLoad reg st nm = .ok (inst, st1) := by
  cases hc : alookup st.cache nm with
  | some inst => exact ⟨inst, st, by simp [pluginLoad, hc]⟩
  | none =>
    obtain ⟨impl, himpl⟩ := Option.isSome_iff_exists.mp hknown
    exact ⟨⟨nm, impl, st.fresh⟩,
      ⟨st.cache ++ [(nm, ⟨nm, impl, st.fresh⟩)], st.fresh + 1⟩,
      by simp [pluginLoad, hc, himpl]⟩

/-- On a registry-consistent loader state a successful load returns an instance
of the registered implementation, and consistency is preserved. -/
theorem pluginLoad_consistent (reg : String → Option PluginImpl)
    (st : LoaderState) (nm : String) (inst : LoadedPlugin) (st1 : LoaderState)
    (hcons : regCacheConsistent reg st)
    (h : pluginLoad reg st nm = .ok (inst, st1)) :
    reg nm = some inst.impl ∧ regCacheConsistent reg st1 := by
  simp only [pluginLoad] at h
  split at h
  · next inst2 heq =>
    cases h
    exact ⟨hcons nm _ heq, hcons⟩
  · next heq =>
    split at h
    · cases h
    · next impl himpl =>
      cases h
      constructor
      · simpa using himpl
      · intro nm2 inst2 hlook
        cases hc2 : alookup st.cache nm2 with
        | some i =>
          rw [alookup_append_some hc2 _] at hlook
          cases hlook
          exact hcons nm2 _ hc2
        | none =>
          rw [alookup_append_none hc2] at hlook
          simp only [alookup] at hlook
          by_cases hnm : nm = nm2
          · rw [if_pos hnm] at hlook
            cases hlook
            rw [← hnm]
            simpa using himpl
          · rw [if_neg hnm] at hlook
            cases hlook

/-- The length of a list of names is the count of one name plus the length of
the list filtered to the other names. -/
theorem length_count_filter (l : List String) (a : String) :
    l.length = l.count a + (l.filter (fun x => x ≠ a)).length := by
  induction l with
  | nil => rfl
  | cons b t ih =>
    by_cases hb : b = a
    · subst hb
      simp [List.filter_cons, List.count_cons_self] at ih ⊢
      omega
    · have hab : a ≠ b := fun hEq => hb hEq.symm
      simp [List.filter_cons, List.count_cons_of_ne hab, hb] at ih ⊢
      omega

/-- The section loop of configure, on a consistent loader state with all
non-core section names registered, either fails with a Parameter Error naming a
required or discovered parameter of the offending section's specification, or
succeeds preserving the section names with every required and discovered
parameter of every output section present and non-null. -/
theorem configureList_dichotomy (reg : String → Option PluginImpl)
    (core : PluginImpl) :
    ∀ (l : List (String × IniSection)) (st : LoaderState),
      regCacheConsistent reg st →
      (∀ nm, nm ∈ l.map Prod.fst → nm ≠ CORE → (reg nm).isSome = true) →
      (∃ nm q, configureList reg core st l = .error (.paramError nm q)
        ∧ q ∈ reqDisc (sectionSpec reg core nm))
      ∨ (∃ cfg st', configureList reg core st l = .ok (cfg, st')
        ∧ cfg.map Prod.fst = l.map Prod.fst
        ∧ ∀ kv ∈ cfg, ∀ q ∈ reqDisc (sectionSpec reg core kv.1),
            paramPresent kv.2 q = true) := by
  intro l
  induction l with
  | nil =>
    intro st _ _
    right
    exact ⟨[], st, rfl, rfl, fun kv hkv => absurd hkv (List.not_mem_nil kv)⟩
  | cons hd tl ih =>
    intro st hcons hknown
    obtain ⟨nm, s⟩ := hd
    by_cases hcore : nm = CORE
    · have hspec : sectionSpec reg core nm = core.spec := by
        simp [sectionSpec, hcore]
      cases hcc : contractConfigure nm core s with
      | error e =>
        obtain ⟨q, hq, hqmem⟩ := contractConfigure_error_param nm core s e hcc
        subst hq
        left
        refine ⟨nm, q, ?_, ?_⟩
        · simp [configureList, configureHandler, if_pos hcore, hcc, Except.map]
        · rw [hspec]; exact hqmem
      | ok s' =>
        rcases ih st hcons
            (fun x hx hxc => hknown x (List.mem_cons_of_mem _ hx) hxc) with
          ⟨nm2, q, herr, hmem⟩ | ⟨cfg, st', hok, hnames, hparams⟩
        · left
          refine ⟨nm2, q, ?_, hmem⟩
          simp [configureList, configureHandler, if_pos hcore, hcc,
            Except.map, herr]
        · right
          refine ⟨(nm, s') :: cfg, st', ?_, ?_, ?_⟩
          · simp [configureList, configureHandler, if_pos hcore, hcc,
              Except.map, hok]
          · simp [hnames]
          · intro kv hkv
            rcases List.mem_cons.mp hkv with h1 | h2
            · subst h1
              intro q hq
              rw [hspec] at hq
              exact contractConfigure_ok_params nm core s s' hcc q hq
            · exact hparams kv h2
    · have hreg : (reg nm).isSome = true :=
        hknown nm (by simp) hcore
      obtain ⟨inst, st1, hload⟩ := pluginLoad_total reg st nm hreg
      obtain ⟨himpl, hcons1⟩ := pluginLoad_consistent reg st nm inst st1 hcons hload
      have hspec : sectionSpec reg core nm = inst.impl.spec := by
        simp [sectionSpec, hcore, himpl]
      cases hcc : contractConfigure nm inst.impl s with
      | error e =>
        obtain ⟨q, hq, hqmem⟩ := contractConfigure_error_param nm inst.impl s e hcc
        subst hq
        left
        refine ⟨nm, q, ?_, ?_⟩
        · simp [configureList, configureHandler, if_neg hcore, hload, hcc,
            Except.map]
        · rw [hspec]; exact hqmem
      | ok s' =>
        rcases ih st1 hcons1
            (fun x hx hxc => hknown x (List.mem_cons_of_mem _ hx) hxc) with
          ⟨nm2, q, herr, hmem⟩ | ⟨cfg, st', hok, hnames, hparams⟩
        · left
          refine ⟨nm2, q, ?_, hmem⟩
          simp [configureList, configureHandler, if_neg hcore, hload, hcc,
            Except.map, herr]
        · right
          refine ⟨(nm, s') :: cfg, st', ?_, ?_, ?_⟩
          · simp [configureList, configureHandler, if_neg hcore, hload, hcc,
              Except.map, hok]
          · simp [hnames]
          · intro kv hkv
            rcases List.mem_cons.mp hkv with h1 | h2
            · subst h1
              intro q hq
              rw [hspec] at hq
              exact contractConfigure_ok_params nm inst.impl s s' hcc q hq
            · exact hparams kv h2

/-- C3: on a configuration containing the core section once and otherwise only
registered plugin sections, main.configure (fresh from construction, so with a
registry-consistent loader) either fails with a Parameter Error naming a
required or discovered parameter of the offending section, or succeeds with a
configuration of exactly N plus one sections -- the N plugin sections plus the
core section, names and order preserved -- in which every required and
discovered parameter of every section is present and non-null. -/
theorem C3_configure_dichotomy (reg : String → Option PluginImpl)
    (core : PluginImpl) (w : String → Bool) (st : LoaderState) (cfgIn : Config)
    (hcons : regCacheConsistent reg st)
    (hknown : ∀ nm, nm ∈ cfgIn.map Prod.fst → nm ≠ CORE → (reg nm).isSome = true)
    (hcore : (cfgIn.map Prod.fst).count CORE = 1) :
    (∃ nm q, configurePhase reg core w st none cfgIn = .error (.paramError nm q)
      ∧ q ∈ reqDisc (sectionSpec reg core nm))
    ∨ (∃ cfgOut st',
      configurePhase reg core w st none cfgIn = .ok (cfgOut, [], st')
      ∧ cfgOut.map Prod.fst = cfgIn.map Prod.fst
      ∧ cfgOut.length
          = ((cfgIn.map Prod.fst).filter (fun nm => nm ≠ CORE)).length + 1
      ∧ ∀ kv ∈ cfgOut, ∀ q ∈ reqDisc (sectionSpec reg core kv.1),
          paramPresent kv.2 q = true) := by
  rcases configureList_dichotomy reg core cfgIn st hcons hknown with
    ⟨nm, q, herr, hmem⟩ | ⟨cfg, st', hok, hnames, hparams⟩
  · left
    exact ⟨nm, q, by simp [configurePhase, outputPreflight, herr], hmem⟩
  · right
    refine ⟨cfg, st', by simp [configurePhase, outputPreflight, hok], hnames,
      ?_, hparams⟩
    have h1 : cfg.length = (cfgIn.map Prod.fst).length := by
      rw [← List.length_map cfg Prod.fst, hnames]
    rw [h1, length_count_filter (cfgIn.map Prod.fst) CORE, hcore]
    omega

/-- Witness for C3 on the scenario configuration: configure succeeds with the
core and demo1 sections, names preserved, and all required parameters present. -/
theorem C3_configure_dichotomy_witness :
    (∃ nm q, configurePhase demoRegistry coreConfigurerImpl (fun _ => true)
        freshLoader none demoConfig = .error (.paramError nm q)
      ∧ q ∈ reqDisc (sectionSpec demoRegistry coreConfigurerImpl nm))
    ∨ (∃ cfgOut st',
      configurePhase demoRegistry coreConfigurerImpl (fun _ => true)
        freshLoader none demoConfig = .ok (cfgOut, [], st')
      ∧ cfgOut.map Prod.fst = demoConfig.map Prod.fst
      ∧ cfgOut.length
          = ((demoConfig.map Prod.fst).filter (fun nm => nm ≠ CORE)).length + 1
      ∧ ∀ kv ∈ cfgOut,
          ∀ q ∈ reqDisc (sectionSpec demoRegistry coreConfigurerImpl kv.1),
          paramPresent kv.2 q = true) :=
  C3_configure_dichotomy demoRegistry coreConfigurerImpl (fun _ => true)
    freshLoader demoConfig
    (fun nm inst h => by simp [freshLoader, alookup] at h)
    (by
      intro nm hmem hne
      simp only [demoConfig, List.map_cons, List.map_nil, List.mem_cons,
        List.not_mem_nil, or_false] at hmem
      rcases hmem with h | h
      · exact absurd h hne
      · subst h
        rfl)
    (by decide)
end Djerba





